import Mathlib

/-!
# Verification of the Corten-DevTools orchestrator

Shallow embedding of `src/orchestrate_devtools_implementation.py` (a build
pipeline orchestrator driving a multi-phase construction of interdependent
components) together with proofs of the specified properties: the component
table invariants, the build-order partition, the leveling/`BUILD_ORDER`
equivalence, scaffolding idempotence, the run/exit-code behaviour of `main`,
and — for the parts of the design the source only simulates (bounded
dispatch, build abort, integration gate) — models taken from the spec.
-/

namespace DevTools

/-- Metadata record for one component, mirroring the dict values of the
`COMPONENTS` table in the source (level, type, description, estimated
tokens, dependency list, tech stack). -/
structure ComponentInfo where
  level : Nat
  ctype : String
  description : String
  estimated_tokens : Nat
  dependencies : List String
  tech_stack : String
deriving DecidableEq, Repr

/-- The `COMPONENTS` table (source lines 38-136), in source (= Python dict
insertion) order. -/
def COMPONENTS : List (String × ComponentInfo) := [
  ("cdp_types",
    { level := 0, ctype := "base",
      description := "CDP protocol types, events, and error definitions",
      estimated_tokens := 30000,
      dependencies := [],
      tech_stack := "Rust 2021, serde, serde_json, serde_repr" }),
  ("cdp_server",
    { level := 1, ctype := "core",
      description := "WebSocket server and session management",
      estimated_tokens := 40000,
      dependencies := ["cdp_types"],
      tech_stack := "Rust 2021, tokio, tokio-tungstenite, async-trait" }),
  ("protocol_handler",
    { level := 1, ctype := "core",
      description := "CDP message routing and domain registry",
      estimated_tokens := 35000,
      dependencies := ["cdp_types"],
      tech_stack := "Rust 2021, serde_json, dashmap, async-trait" }),
  ("dom_domain",
    { level := 2, ctype := "feature",
      description := "DOM and CSS domain implementations",
      estimated_tokens := 60000,
      dependencies := ["cdp_types", "protocol_handler"],
      tech_stack := "Rust 2021, DOM bridge integration" }),
  ("network_domain",
    { level := 2, ctype := "feature",
      description := "Network monitoring and interception",
      estimated_tokens := 55000,
      dependencies := ["cdp_types", "protocol_handler"],
      tech_stack := "Rust 2021, Network stack bridge integration" }),
  ("runtime_debugger",
    { level := 2, ctype := "feature",
      description := "JavaScript Runtime and Debugger domains",
      estimated_tokens := 70000,
      dependencies := ["cdp_types", "protocol_handler"],
      tech_stack := "Rust 2021, JS runtime bridge integration, breakpoints" }),
  ("profiler_domains",
    { level := 2, ctype := "feature",
      description := "Performance profiling and heap analysis",
      estimated_tokens := 60000,
      dependencies := ["cdp_types", "protocol_handler"],
      tech_stack := "Rust 2021, CPU/memory profiling, timeline recording" }),
  ("console_storage",
    { level := 2, ctype := "feature",
      description := "Console REPL and storage inspection",
      estimated_tokens := 45000,
      dependencies := ["cdp_types", "protocol_handler"],
      tech_stack := "Rust 2021, REPL, logging infrastructure" }),
  ("browser_page_domains",
    { level := 2, ctype := "feature",
      description := "Browser, Page, Security, and Emulation domains",
      estimated_tokens := 50000,
      dependencies := ["cdp_types", "protocol_handler"],
      tech_stack := "Rust 2021, multiple CDP domains" }),
  ("devtools_component",
    { level := 3, ctype := "integration",
      description := "Main DevTools orchestration and integration",
      estimated_tokens := 50000,
      dependencies := ["cdp_types", "cdp_server", "protocol_handler",
        "dom_domain", "network_domain", "runtime_debugger",
        "profiler_domains", "console_storage", "browser_page_domains"],
      tech_stack := "Rust 2021, BrowserComponent trait, integration" }),
  ("devtools_api",
    { level := 4, ctype := "application",
      description := "Public API and configuration",
      estimated_tokens := 15000,
      dependencies := ["devtools_component"],
      tech_stack := "Rust 2021, public API, DevToolsConfig" })]

/-- The hardcoded `BUILD_ORDER` list (source lines 139-151): one list of
component names per dependency level, level 0 first. -/
def BUILD_ORDER : List (List String) := [
  ["cdp_types"],
  ["cdp_server", "protocol_handler"],
  ["dom_domain", "network_domain", "runtime_debugger",
   "profiler_domains", "console_storage", "browser_page_domains"],
  ["devtools_component"],
  ["devtools_api"]]

/-- The names of all components, in table order. -/
def componentNames : List String := COMPONENTS.map Prod.fst

/-- The level recorded in the `COMPONENTS` table for a name (0 if the name
is not in the table; every dependency in the table does occur, see
`C3_level_derivation`). -/
def levelOf (n : String) : Nat :=
  match COMPONENTS.lookup n with
  | some i => i.level
  | none => 0

/-- Model of `get_components_at_level` (source lines 430-432): all component
names whose table entry has the given level, in table (insertion) order. -/
def get_components_at_level (level : Nat) : List String :=
  (COMPONENTS.filter (fun p => p.2.level == level)).map Prod.fst

/-- The derivation rule for dependency levels, per component: a component
with no dependencies has level 0, otherwise its level is
`1 + max (levels of its dependencies)`; and every dependency sits at a
strictly smaller level. -/
def levelCheck (p : String × ComponentInfo) : Bool :=
  (if p.2.dependencies.isEmpty then p.2.level == 0
   else p.2.level == 1 + (p.2.dependencies.map levelOf).foldr max 0) &&
  p.2.dependencies.all (fun d => levelOf d < p.2.level)

/-- Index of the `BUILD_ORDER` set containing a component name. -/
def setIdx (c : String) : Nat :=
  BUILD_ORDER.findIdx (fun lv => lv.contains c)

/-- Claim C3: in the component table, every component's dependency level
satisfies the derivation rule: level 0 when there are no dependencies, and
`1 + max (dependency levels)` otherwise; consequently every dependency edge
goes from a strictly higher level to a strictly lower one. -/
theorem C3_level_derivation : COMPONENTS.all levelCheck = true := by decide

/-- Claim C4: the build order partitions the component set exactly: every
component name is contained in exactly one of the `BUILD_ORDER` sets, the
sets are pairwise disjoint, their union (as a list join) is a permutation
of the component-name set, and for every dependency edge (A depends on B)
the index of A's set is strictly greater than the index of B's set. -/
theorem C4_build_order_partition :
    componentNames.all (fun c => BUILD_ORDER.countP (fun lv => lv.contains c) == 1) = true ∧
    List.Pairwise List.Disjoint BUILD_ORDER ∧
    BUILD_ORDER.flatten.Perm componentNames ∧
    COMPONENTS.all (fun p => p.2.dependencies.all (fun d => setIdx d < setIdx p.1)) = true := by
  have hnd : BUILD_ORDER.flatten.Nodup := by decide
  refine ⟨by decide, (List.nodup_flatten.mp hnd).2, ?_, by decide⟩
  decide

/-- Claim C5: for every level index 0-4, the level grouping derived from the
component table by `get_components_at_level` equals, as an ordered list
(table insertion order), the corresponding hardcoded `BUILD_ORDER` entry. -/
theorem C5_levels_match_build_order :
    get_components_at_level 0 = BUILD_ORDER.getD 0 [] ∧
    get_components_at_level 1 = BUILD_ORDER.getD 1 [] ∧
    get_components_at_level 2 = BUILD_ORDER.getD 2 [] ∧
    get_components_at_level 3 = BUILD_ORDER.getD 3 [] ∧
    get_components_at_level 4 = BUILD_ORDER.getD 4 [] := by
  refine ⟨rfl, rfl, rfl, rfl, rfl⟩

/-! ## Filesystem model and component scaffolding -/

/-- Filesystem model: a map from absolute path to file content; `none`
means no file at that path. -/
def FS : Type := String → Option String

/-- Model of `Path.write_text`: (over)write the file at `path` with
`content`, leaving every other path untouched. -/
def write_text (path content : String) (fs : FS) : FS :=
  fun q => if q = path then some content else fs q

/-- The `PROJECT_ROOT` constant (source line 34). -/
def PROJECT_ROOT : String := "/home/user/Corten-DevTools"

/-- Path of a component's `CLAUDE.md` file, as built in
`create_component_structure` (source lines 365-369). -/
def componentMdPath (n : String) : String :=
  PROJECT_ROOT ++ "/components/" ++ n ++ "/CLAUDE.md"

/-- Path of a component's contract file, as built in `phase_3_contracts`
(source line 399). -/
def contractPath (n : String) : String :=
  PROJECT_ROOT ++ "/contracts/" ++ n ++ ".yaml"

/-- Model of the `deps_list` computation of `generate_claude_md` (source
lines 163-165): newline-joined bullet list of dependencies, with a fixed
fallback line when there are none. -/
def deps_list (deps : List String) : String :=
  if deps.isEmpty then "- None (base component)"
  else String.intercalate "\n" (deps.map (fun d => "- " ++ d))

/-- Model of Python `str.title()`: uppercase every letter that follows a
non-letter, lowercase the rest (the source applies it to names whose
underscores were removed, e.g. `cdp_types` becomes `Cdptypes`). -/
def pyTitle (s : String) : String :=
  String.mk ((s.data.foldl
    (fun acc c =>
      if c.isAlpha then (acc.1 ++ [if acc.2 then c.toLower else c.toUpper], true)
      else (acc.1 ++ [c], false))
    (([] : List Char), false)).1)

/-- The error-enum name interpolated by the template (source lines 289 and
297): `component_name.replace('_', '').title()` followed by `Error`. -/
def errorTypeName (n : String) : String :=
  pyTitle (n.replace "_" "") ++ "Error"

/-- Model of `generate_claude_md` (source lines 161-358). Every
data-dependent part of the Python f-string — each interpolation point and
the `deps_list` fallback branch — is reproduced in source order; the long
constant instruction prose between interpolation points (template
boilerplate the spec scopes out of the core, §1) is abbreviated to
bracketed marker lines. Like the source, this is a pure function of the
component name and its table entry. -/
def generate_claude_md (component_name : String) (info : ComponentInfo) : String :=
  "# Component: " ++ component_name ++ "\n\n" ++
  "## Component Information\n" ++
  "- **Name**: " ++ component_name ++ "\n" ++
  "- **Type**: " ++ info.ctype ++ "\n" ++
  "- **Level**: " ++ toString info.level ++ "\n" ++
  "- **Version**: 0.1.0\n" ++
  "- **Project**: CortenBrowser DevTools (v0.1.0)\n" ++
  "- **Project Root**: " ++ PROJECT_ROOT ++ "\n" ++
  "- **Tech Stack**: " ++ info.tech_stack ++ "\n\n" ++
  "## Responsibility\n" ++ info.description ++ "\n\n" ++
  "## Dependencies\n" ++ deps_list info.dependencies ++ "\n\n" ++
  "## Implementation Requirements\n" ++
  "[static TDD/BDD workflow instructions]\n" ++
  "Read the specification file: " ++ PROJECT_ROOT ++ "/devtools-component-specification.md\n" ++
  "Extract the relevant sections for **" ++ component_name ++ "** and implement them.\n" ++
  "[static quality standards and technology guidelines]\n" ++
  "File structure rooted at " ++ component_name ++ "/\n" ++
  "[static testing strategy; integration tests import " ++ component_name ++ "::*]\n" ++
  "Error handling enum: " ++ errorTypeName component_name ++ "\n" ++
  "Result alias: std::result::Result<T, " ++ errorTypeName component_name ++ ">\n" ++
  "[static git workflow and quality verification checklist]\n" ++
  "Work ONLY in components/" ++ component_name ++ "/ directory\n" ++
  "[static communication template and closing instructions]\n"

/-- Model of `create_component_structure` (source lines 361-372): generate
the `CLAUDE.md` content for the component and write it to the component's
path (the function performs no other filesystem mutation — it does not
even create the directory). -/
def create_component_structure (component_name : String) (info : ComponentInfo)
    (fs : FS) : FS :=
  write_text (componentMdPath component_name)
    (generate_claude_md component_name info) fs

/-- Claim C9: scaffolding a component is idempotent — running
`create_component_structure` twice with the same name and info leaves the
filesystem exactly as running it once does (the second run rewrites
byte-identical content to the same single path). -/
theorem C9_scaffold_idempotent (n : String) (i : ComponentInfo) (fs : FS) :
    create_component_structure n i (create_component_structure n i fs) =
      create_component_structure n i fs := by
  funext q
  by_cases h : q = componentMdPath n <;>
    simp [create_component_structure, write_text, h]

/-! ## Run model: the phases and `main`

The orchestrator's effectful behaviour is embedded as a function of a run
environment: which filesystem writes succeed (a write raises in Python when
it fails, e.g. the target directory is absent), and what reading the
configuration file yields. `main` (source lines 514-564) runs phases 2-6 in
order inside one `try`, returns `0` at the end, and its catch-all `except`
turns any raised exception into return value `1`. -/

/-- Run environment. `writeOk p` tells whether the `write_text` call on
path `p` succeeds (`false` = it raises). `config` models
`read_config` followed by the `config["orchestration"]["max_parallel_agents"]`
lookup in `phase_4_parallel_development`: `none` = opening/parsing the
config file raises, `some none` = it parses but the key chain is absent
(KeyError), `some (some v)` = the key chain is present with value `v`. -/
structure Env where
  writeOk : String → Bool
  config : Option (Option Int)

/-- Model of `read_config` (source lines 154-158): load the configuration
file; no validation of any kind is performed on the parsed value. -/
def read_config (env : Env) : Option (Option Int) := env.config

/-- Paths written by phase 2, one `CLAUDE.md` per component, in table
order. -/
def componentMdPaths : List String := COMPONENTS.map (fun p => componentMdPath p.1)

/-- Paths written by phase 3, one contract YAML per component, in table
order. -/
def contractPaths : List String := COMPONENTS.map (fun p => contractPath p.1)

/-- Sequentially attempt the given writes. Returns the paths actually
written together with `true`, or — when a write fails — the paths written
before the failure together with `false` (the raised exception aborts the
loop; earlier writes persist). -/
def writeAll (ok : String → Bool) : List String → List String × Bool
  | [] => ([], true)
  | p :: ps =>
    if ok p then
      let r := writeAll ok ps
      (p :: r.1, r.2)
    else ([], false)

/-- Model of `phase_2_component_creation` (source lines 375-385): run
`create_component_structure` for every component in table order; any
failed write raises out of the phase. -/
def phase_2_component_creation (env : Env) : List String × Bool :=
  writeAll env.writeOk componentMdPaths

/-- Model of `phase_3_contracts` (source lines 388-427): write one contract
file per component in table order; any failed write raises out of the
phase. -/
def phase_3_contracts (env : Env) : List String × Bool :=
  writeAll env.writeOk contractPaths

/-- Model of `phase_4_parallel_development` (source lines 435-466): read
the configuration and look up `orchestration.max_parallel_agents` — the
only failure points of the phase — then only print the per-level plan (no
worker is invoked, no value validation occurs, every level of
`BUILD_ORDER` is nonempty so the loop body cannot raise). Returns whether
the phase completed without raising. -/
def phase_4_parallel_development (env : Env) : Bool :=
  match read_config env with
  | some (some _) => true
  | _ => false

/-- Model of `phase_5_integration_testing` (source lines 469-487): the
body only prints; the phase cannot raise and performs no gating. -/
def phase_5_integration_testing : Bool := true

/-- Model of `phase_6_completion_verification` (source lines 490-511): the
body only prints; the phase cannot raise and performs no checking. -/
def phase_6_completion_verification : Bool := true

/-- Model of `main` (source lines 514-564): run phases 2-6 in order inside
a single `try`; return `0` when every phase completes, and `1` — via the
catch-all `except Exception` — when any phase raises. Result: the list of
paths written (in order) and the process exit code. -/
def main (env : Env) : List String × Nat :=
  let r2 := phase_2_component_creation env
  if r2.2 then
    let r3 := phase_3_contracts env
    if r3.2 then
      if phase_4_parallel_development env then
        if phase_5_integration_testing then
          if phase_6_completion_verification then
            (r2.1 ++ r3.1, 0)
          else (r2.1 ++ r3.1, 1)
        else (r2.1 ++ r3.1, 1)
      else (r2.1 ++ r3.1, 1)
    else (r2.1 ++ r3.1, 1)
  else (r2.1, 1)

/-- When every write succeeds, `writeAll` writes the whole list. -/
theorem writeAll_of_ok (ok : String → Bool) (h : ∀ p, ok p = true) :
    ∀ ps : List String, writeAll ok ps = (ps, true) := by
  intro ps
  induction ps with
  | nil => rfl
  | cons p ps ih => simp [writeAll, h p, ih]

/-- Environment in which the phase-2 write for `cdp_types` fails (e.g. the
`components` directory is absent so `write_text` raises) and everything
else is healthy. -/
def envScaffoldFail : Env :=
  { writeOk := fun p => p != componentMdPath "cdp_types",
    config := some (some 4) }

/-- Claim C1: on a run where component creation (the Scaffolding phase)
fails, `main` exits with code `1` — not the code `2` that the claim and
the module docstring (source lines 17-23) assign to a component-creation
failure; indeed every run exits with `0` or `1`, so codes 2-6 are
unreachable. -/
theorem C1_exit_code_collapse :
    ((main envScaffoldFail).2 = 1 ∧ (main envScaffoldFail).2 ≠ 2) ∧
      ∀ env : Env, (main env).2 = 0 ∨ (main env).2 = 1 := by
  refine ⟨by decide, ?_⟩
  intro env
  by_cases h2 : (phase_2_component_creation env).2 <;>
    by_cases h3 : (phase_3_contracts env).2 <;>
    by_cases h4 : phase_4_parallel_development env <;>
    simp [main, phase_5_integration_testing, phase_6_completion_verification,
      h2, h3, h4]

/-- Environment whose configuration parses and carries a non-positive
`max_parallel_agents`, with all writes succeeding. -/
def envNonPositive : Env := { writeOk := fun _ => true, config := some (some 0) }

/-- Environment whose configuration file is missing, with all writes
succeeding. -/
def envMissingConfig : Env := { writeOk := fun _ => true, config := none }

/-- Counterexample to claim C2: with `max_parallel_agents = 0` (non-
positive) the run does not fail at all — it exits `0`; and with the
configuration file missing, the phase-2 component-creation write for
`cdp_types` is still performed before the run fails, so phases are entered
and their actions performed despite the bad configuration. -/
theorem C2_counterexample :
    (main envNonPositive).2 = 0 ∧
      componentMdPath "cdp_types" ∈ (main envMissingConfig).1 := by
  constructor
  · decide
  · decide

/-- Claim C2 as amended: when the configuration file is missing or the key
chain `orchestration.max_parallel_agents` is absent, the run fails with
exit code 1 (a generic uncaught-exception path, not a dedicated
`ConfigurationError`), and only during phase 4 — every phase-2
component-creation write and every phase-3 contract write has already been
performed; a present but non-positive value causes no failure at all. -/
theorem C2_config_failure_is_late (env : Env)
    (hw : ∀ p, env.writeOk p = true)
    (hc : env.config = none ∨ env.config = some none) :
    (main env).2 = 1 ∧ (main env).1 = componentMdPaths ++ contractPaths := by
  have h2 : phase_2_component_creation env = (componentMdPaths, true) :=
    writeAll_of_ok env.writeOk hw componentMdPaths
  have h3 : phase_3_contracts env = (contractPaths, true) :=
    writeAll_of_ok env.writeOk hw contractPaths
  have h4 : phase_4_parallel_development env = false := by
    rcases hc with h | h <;>
      simp [phase_4_parallel_development, read_config, h]
  simp [main, h2, h3, h4]

/-- Witness for `C2_config_failure_is_late` at the concrete
missing-configuration environment. -/
theorem C2_config_failure_is_late_witness :
    (main envMissingConfig).2 = 1 ∧
      (main envMissingConfig).1 = componentMdPaths ++ contractPaths :=
  C2_config_failure_is_late envMissingConfig (fun _ => rfl) (Or.inl rfl)

/-- Claim C10: whenever all phase-2 and phase-3 writes succeed and the
configuration parses with `orchestration.max_parallel_agents` present —
with any value `v` whatsoever, positive or not — `main` returns exit code
0: phases 4, 5 and 6 contain no failure path. -/
theorem C10_no_failure_after_phase_3 (env : Env) (v : Int)
    (hw : ∀ p, env.writeOk p = true)
    (hc : env.config = some (some v)) :
    (main env).2 = 0 := by
  have h2 : phase_2_component_creation env = (componentMdPaths, true) :=
    writeAll_of_ok env.writeOk hw componentMdPaths
  have h3 : phase_3_contracts env = (contractPaths, true) :=
    writeAll_of_ok env.writeOk hw contractPaths
  have h4 : phase_4_parallel_development env = true := by
    simp [phase_4_parallel_development, read_config, hc]
  simp [main, h2, h3, h4, phase_5_integration_testing,
    phase_6_completion_verification]

/-- Environment with all writes succeeding and a configuration carrying a
negative `max_parallel_agents` value. -/
def envNegativeLimit : Env := { writeOk := fun _ => true, config := some (some (-3)) }

/-- Witness for `C10_no_failure_after_phase_3`: even a negative
`max_parallel_agents` value yields exit code 0. -/
theorem C10_no_failure_after_phase_3_witness : (main envNegativeLimit).2 = 0 :=
  C10_no_failure_after_phase_3 envNegativeLimit (-3) (fun _ => rfl) rfl

/-! ## Spec-modelled core: leveled build execution

The real Build-phase dispatch is not in the source:
`phase_4_parallel_development` only prints a "[SIMULATED]" plan and invokes
no Worker. The definitions below are therefore modelled from the spec
(§4.2-§4.4 and the §6 exit-code table). -/

/-- Modelled from the spec: the Build phase's level loop, missing from the
source (`phase_4_parallel_development` merely prints the plan). Per §4.4(4):
run the build order one level at a time; every component of the current
level is dispatched to the Worker (`worker c = true` meaning success) and
the level runs to its barrier; if any component of the level failed, the
pipeline aborts immediately after that level completes and no later level
is started. Returns the components that received a Worker invocation, in
dispatch order, and whether the phase passed. -/
def runLevels (worker : String → Bool) : List (List String) → List String × Bool
  | [] => ([], true)
  | lv :: rest =>
    if lv.all worker then
      let r := runLevels worker rest
      (lv ++ r.1, r.2)
    else (lv, false)

/-- Modelled from the spec: the Build phase over the concrete
`BUILD_ORDER`. -/
def buildPhase (worker : String → Bool) : List String × Bool :=
  runLevels worker BUILD_ORDER

/-- Modelled from the spec: the §6 exit-code table assigns code 3 to a
Build failure; on success the Build phase contributes the success sentinel
0 (the pipeline continues). -/
def buildExitCode (worker : String → Bool) : Nat :=
  if (buildPhase worker).2 then 0 else 3

/-- When every component of the levels before `lv` succeeds and `lv` has a
failure, the level loop invokes exactly the earlier levels plus all of
`lv` (the failing level still runs to its barrier) and reports failure. -/
theorem runLevels_fail (worker : String → Bool) (lv : List String)
    (rest : List (List String)) (hlv : lv.all worker = false) :
    ∀ pre : List (List String), (∀ c ∈ pre.flatten, worker c = true) →
      runLevels worker (pre ++ lv :: rest) = (pre.flatten ++ lv, false) := by
  intro pre
  induction pre with
  | nil => intro _; simp [runLevels, hlv]
  | cons a pre ih =>
    intro hpre
    have ha : a.all worker = true := by
      rw [List.all_eq_true]
      intro c hc
      exact hpre c (by simp [hc])
    have hpre' : ∀ c ∈ pre.flatten, worker c = true := by
      intro c hc
      exact hpre c (by simp [hc])
    simp [runLevels, ha, ih hpre', List.append_assoc]

/-- Claim C6: if every component before level `lv` of the build order
succeeds and some component `c` of `lv` fails, then the Build phase exit
code is 3, exactly the earlier levels and `lv` itself were dispatched
(the failing level completes its barrier), and no component of any later
level ever receives a Worker invocation. -/
theorem C6_build_abort (worker : String → Bool) (pre : List (List String))
    (lv : List String) (rest : List (List String)) (c : String)
    (hBO : BUILD_ORDER = pre ++ lv :: rest)
    (hc : c ∈ lv) (hfail : worker c = false)
    (hpre : ∀ d ∈ pre.flatten, worker d = true) :
    buildExitCode worker = 3 ∧
      (buildPhase worker).1 = pre.flatten ++ lv ∧
      ∀ d ∈ rest.flatten, d ∉ (buildPhase worker).1 := by
  have hlv : lv.all worker = false := by
    cases h : lv.all worker with
    | false => rfl
    | true =>
      rw [List.all_eq_true] at h
      have hcw := h c hc
      simp [hfail] at hcw
  have hrun : buildPhase worker = (pre.flatten ++ lv, false) := by
    rw [buildPhase, hBO]
    exact runLevels_fail worker lv rest hlv pre hpre
  have hnd : (pre.flatten ++ (lv ++ rest.flatten)).Nodup := by
    have h0 : BUILD_ORDER.flatten.Nodup := by decide
    rw [hBO] at h0
    simpa [List.flatten_append, List.flatten_cons, List.append_assoc] using h0
  obtain ⟨-, hndBC, hdisjA⟩ := List.nodup_append.mp hnd
  obtain ⟨-, -, hdisjBC⟩ := List.nodup_append.mp hndBC
  refine ⟨by simp [buildExitCode, hrun], by simp [hrun], ?_⟩
  intro d hd hmem
  rw [hrun] at hmem
  rcases List.mem_append.mp hmem with hA | hB
  · exact hdisjA hA (List.mem_append.mpr (Or.inr hd))
  · exact hdisjBC hB hd

/-- Worker outcome in which exactly `cdp_server` (a level-1 component)
fails. -/
def workerFailServer : String → Bool := fun c => c != "cdp_server"

/-- Witness for `C6_build_abort`: with `cdp_server` failing at level 1, the
Build exit code is 3 and the level-2 component `dom_domain` is never
dispatched. -/
theorem C6_build_abort_witness :
    buildExitCode workerFailServer = 3 ∧
      "dom_domain" ∉ (buildPhase workerFailServer).1 := by
  have h := C6_build_abort workerFailServer [["cdp_types"]]
    ["cdp_server", "protocol_handler"]
    [["dom_domain", "network_domain", "runtime_debugger",
      "profiler_domains", "console_storage", "browser_page_domains"],
     ["devtools_component"], ["devtools_api"]]
    "cdp_server" (by decide) (by decide) (by decide) (by decide)
  exact ⟨h.1, h.2.2 "dom_domain" (by decide)⟩

/-! ## Spec-modelled core: the Integration gate

`phase_5_integration_testing` in the source only prints the requirements;
the gate itself is modelled from §4.4(5) and §6 of the spec. -/

/-- Report of the external IntegrationTestRunner collaborator (spec §6). -/
structure IntegrationReport where
  executedCount : Nat
  totalCount : Nat
  failedCount : Nat

/-- Modelled from the spec: the Integration phase gate, missing from the
source (`phase_5_integration_testing` only prints). Per §4.4(5): the gate
passes iff every declared test ran and none failed. -/
def integrationGate (r : IntegrationReport) : Bool :=
  r.executedCount == r.totalCount && r.failedCount == 0

/-- Test execution rate in percent: executed over declared. -/
def executionRate (r : IntegrationReport) : ℚ :=
  (r.executedCount : ℚ) * 100 / r.totalCount

/-- Test pass rate in percent: non-failing executed tests over executed. -/
def passRate (r : IntegrationReport) : ℚ :=
  ((r.executedCount : ℚ) - r.failedCount) * 100 / r.executedCount

/-- Modelled from the spec: the §6 exit-code table assigns code 5 to an
Integration-gate failure, 0 (success sentinel) otherwise. -/
def integrationExitCode (r : IntegrationReport) : Nat :=
  if integrationGate r then 0 else 5

/-- Claim C7: for any report with at least one declared test, the
Integration gate passes iff both the execution rate and the pass rate are
exactly 100%; in particular a report with `executedCount = 8`,
`totalCount = 10`, `failedCount = 0` fails the gate and yields exit
code 5. -/
theorem C7_integration_gate :
    (∀ r : IntegrationReport, 0 < r.totalCount →
        (integrationGate r = true ↔ executionRate r = 100 ∧ passRate r = 100)) ∧
      integrationGate ⟨8, 10, 0⟩ = false ∧ integrationExitCode ⟨8, 10, 0⟩ = 5 := by
  refine ⟨?_, by decide, by decide⟩
  intro r ht
  have ht' : (r.totalCount : ℚ) ≠ 0 := Nat.cast_ne_zero.mpr ht.ne'
  constructor
  · intro h
    rw [integrationGate, Bool.and_eq_true, beq_iff_eq, beq_iff_eq] at h
    obtain ⟨he, hf⟩ := h
    constructor
    · rw [executionRate, he]
      field_simp
    · rw [passRate, he, hf]
      push_cast
      field_simp
  · rintro ⟨he, hp⟩
    rw [executionRate, div_eq_iff ht'] at he
    have heq : (r.executedCount : ℚ) = r.totalCount := by linarith
    have heN : r.executedCount = r.totalCount := Nat.cast_inj.mp heq
    have he' : (r.executedCount : ℚ) ≠ 0 := by
      rw [heq]
      exact ht'
    rw [passRate, div_eq_iff he'] at hp
    have hfQ : (r.failedCount : ℚ) = 0 := by linarith
    have hfN : r.failedCount = 0 := by exact_mod_cast hfQ
    simp [integrationGate, heN, hfN]

/-- Witness for `C7_integration_gate`: a fully-run, fully-passing report
has both rates at exactly 100%. -/
theorem C7_integration_gate_witness :
    executionRate ⟨10, 10, 0⟩ = 100 ∧ passRate ⟨10, 10, 0⟩ = 100 :=
  (C7_integration_gate.1 ⟨10, 10, 0⟩ (by decide)).mp (by decide)

/-! ## Spec-modelled core: the Bounded Dispatcher

The source launches no parallel work (`phase_4_parallel_development` only
prints), so the dispatcher is modelled from §4.3 of the spec as a
small-step transition system: a state holds the components of one level
still queued, those currently executing, and the recorded results; a step
either admits a queued component (only while fewer than the concurrency
limit are in flight) or completes a running one, recording its result. -/

/-- Dispatcher state for one level: components not yet started, components
currently executing, and recorded per-component results (most recent
first). -/
structure DState where
  queued : List String
  running : List String
  finished : List (String × Bool)

/-- Modelled from the spec: one scheduling step of the Bounded Dispatcher
(§4.3) with concurrency limit `K` and Worker outcome `w`. `launch` admits
the next queued component only when fewer than `K` are in flight;
`complete` finishes any in-flight component and records exactly one result
for it (a failure is recorded, never dropped, and does not cancel
siblings). -/
inductive DStep (K : Nat) (w : String → Bool) : DState → DState → Prop
  | launch (c : String) (q r : List String) (f : List (String × Bool)) :
      r.length < K → DStep K w ⟨c :: q, r, f⟩ ⟨q, c :: r, f⟩
  | complete (q r₁ r₂ : List String) (c : String) (f : List (String × Bool)) :
      DStep K w ⟨q, r₁ ++ c :: r₂, f⟩ ⟨q, r₁ ++ r₂, (c, w c) :: f⟩

/-- Initial dispatcher state for a level: everything queued, nothing in
flight, no results. -/
def initState (comps : List String) : DState := ⟨comps, [], []⟩

/-- Reachability of a dispatcher state from the initial state of a level
by any interleaving of steps. -/
def DReach (K : Nat) (w : String → Bool) (comps : List String) (s : DState) : Prop :=
  Relation.ReflTransGen (DStep K w) (initState comps) s

/-- Dispatcher invariant: at most `K` components in flight, and the
queued, running, and finished components together are a permutation of the
level's component set. -/
def DInv (K : Nat) (comps : List String) (s : DState) : Prop :=
  s.running.length ≤ K ∧
    (s.queued ++ s.running ++ s.finished.map Prod.fst).Perm comps

/-- The invariant holds initially. -/
theorem DInv_init (K : Nat) (comps : List String) : DInv K comps (initState comps) := by
  exact ⟨Nat.zero_le K, by simp [initState]⟩

/-- Every dispatcher step preserves the invariant. -/
theorem DInv_step (K : Nat) (w : String → Bool) (comps : List String)
    {s t : DState} (hst : DStep K w s t) (hs : DInv K comps s) :
    DInv K comps t := by
  obtain ⟨hlen, hperm⟩ := hs
  cases hst with
  | launch c q r f hlt =>
    refine ⟨by simpa using hlt, ?_⟩
    simp only [List.append_assoc, List.cons_append] at hperm ⊢
    exact List.perm_middle.trans hperm
  | complete q r₁ r₂ c f =>
    constructor
    · have hle : (r₁ ++ r₂).length ≤ (r₁ ++ c :: r₂).length := by
        simp
      exact le_trans hle hlen
    · simp only [List.append_assoc, List.cons_append, List.map_cons] at hperm ⊢
      have p2 : (r₁ ++ (r₂ ++ (c :: f.map Prod.fst))).Perm
          (c :: (r₁ ++ (r₂ ++ f.map Prod.fst))) :=
        (List.Perm.append_left r₁ List.perm_middle).trans List.perm_middle
      have p3 : (q ++ (r₁ ++ (r₂ ++ (c :: f.map Prod.fst)))).Perm
          (c :: (q ++ (r₁ ++ (r₂ ++ f.map Prod.fst)))) :=
        (List.Perm.append_left q p2).trans List.perm_middle
      have p4 : (r₁ ++ (c :: (r₂ ++ f.map Prod.fst))).Perm
          (c :: (r₁ ++ (r₂ ++ f.map Prod.fst))) := List.perm_middle
      have p5 : (q ++ (r₁ ++ (c :: (r₂ ++ f.map Prod.fst)))).Perm
          (c :: (q ++ (r₁ ++ (r₂ ++ f.map Prod.fst)))) :=
        (List.Perm.append_left q p4).trans List.perm_middle
      exact p3.trans (p5.symm.trans hperm)

/-- The invariant holds in every reachable dispatcher state. -/
theorem DInv_reach (K : Nat) (w : String → Bool) (comps : List String)
    {s : DState} (h : DReach K w comps s) : DInv K comps s := by
  induction h with
  | refl => exact DInv_init K comps
  | tail _ hstep ih => exact DInv_step K w comps hstep ih

/-- Claim C8: for a level of `N` distinct components and a concurrency
limit `K < N`, the Bounded Dispatcher never has more than `K` components
executing in any reachable state, and in any terminal state (nothing
queued, nothing in flight) it has recorded exactly `N` results — exactly
one per component of the level, none dropped or duplicated. -/
theorem C8_bounded_dispatch (K : Nat) (w : String → Bool) (comps : List String)
    (s : DState) (hnd : comps.Nodup) (_hK : K < comps.length)
    (hreach : DReach K w comps s) :
    s.running.length ≤ K ∧
      (s.queued = [] → s.running = [] →
        s.finished.length = comps.length ∧
          ∀ c ∈ comps, (s.finished.map Prod.fst).count c = 1) := by
  have hinv := DInv_reach K w comps hreach
  refine ⟨hinv.1, ?_⟩
  intro hq hr
  have hperm : (s.finished.map Prod.fst).Perm comps := by
    have h := hinv.2
    rw [hq, hr] at h
    simpa using h
  refine ⟨by simpa using hperm.length_eq, ?_⟩
  intro c hc
  rw [hperm.count_eq]
  exact List.count_eq_one_of_mem hnd hc

/-- Worker outcome for the dispatcher witness run: everything succeeds. -/
def dispatchDemoW : String → Bool := fun _ => true

/-- The level-1 component set used by the dispatcher witness run. -/
def dispatchDemoComps : List String := ["cdp_server", "protocol_handler"]

/-- Terminal state of the dispatcher witness run with concurrency limit 1:
both level-1 components finished, one result each. -/
def dispatchDemoFinal : DState :=
  ⟨[], [], [("protocol_handler", true), ("cdp_server", true)]⟩

/-- Witness for `C8_bounded_dispatch`: a concrete run of level 1 (two
components) under concurrency limit `K = 1 < 2` reaches the terminal state
with at most one component ever in flight and exactly two results, one per
component. -/
theorem C8_bounded_dispatch_witness :
    dispatchDemoFinal.running.length ≤ 1 ∧
      dispatchDemoFinal.finished.length = 2 ∧
      (dispatchDemoFinal.finished.map Prod.fst).count "cdp_server" = 1 := by
  have t1 : DStep 1 dispatchDemoW ⟨["cdp_server", "protocol_handler"], [], []⟩
      ⟨["protocol_handler"], ["cdp_server"], []⟩ :=
    DStep.launch "cdp_server" ["protocol_handler"] [] [] (by decide)
  have t2 : DStep 1 dispatchDemoW ⟨["protocol_handler"], ["cdp_server"], []⟩
      ⟨["protocol_handler"], [], [("cdp_server", true)]⟩ :=
    DStep.complete ["protocol_handler"] [] [] "cdp_server" []
  have t3 : DStep 1 dispatchDemoW ⟨["protocol_handler"], [], [("cdp_server", true)]⟩
      ⟨[], ["protocol_handler"], [("cdp_server", true)]⟩ :=
    DStep.launch "protocol_handler" [] [] [("cdp_server", true)] (by decide)
  have t4 : DStep 1 dispatchDemoW ⟨[], ["protocol_handler"], [("cdp_server", true)]⟩
      dispatchDemoFinal :=
    DStep.complete [] [] [] "protocol_handler" [("cdp_server", true)]
  have hreach : DReach 1 dispatchDemoW dispatchDemoComps dispatchDemoFinal :=
    Relation.ReflTransGen.head t1 (Relation.ReflTransGen.head t2
      (Relation.ReflTransGen.head t3 (Relation.ReflTransGen.head t4
        Relation.ReflTransGen.refl)))
  have h := C8_bounded_dispatch 1 dispatchDemoW dispatchDemoComps dispatchDemoFinal
    (by decide) (by decide) hreach
  have hterm := h.2 rfl rfl
  exact ⟨h.1, hterm.1.trans rfl, hterm.2 "cdp_server" (by decide)⟩

end DevTools
